import Mathlib

/-
  Verification development for the pxt-ev3 navigation-sensor driver.

  The repository contains two variants of the `NavigationSensor` driver:
  * `main.ts` — the five-lidar variant (modes RANGE/HEADING; accessors
    distanceFrontLeft/distanceFrontRight/distanceLeftSide/distanceRightSide/
    distanceRear and heading/pitch/roll);
  * `navigation-sensor.ts` — the dual-lidar variant (modes NAV1/NAV2;
    accessors distanceLeft/distanceRight/heading, plus per-side
    ObjectNearLeft/ObjectNearRight events in `_update`).

  The host framework pieces the driver relies on (`sensors.ThresholdDetector`
  from the EV3 core, `UartSensor._setMode`, `getNumber`/`NumberFormat`
  buffer decoding) are not part of this repository's sources; they are
  modelled from the specification and marked as such below.

  Stateful driver methods are embedded by explicit state passing: each
  method takes the driver state (and a `Device`, a function from the active
  mode to the byte buffer a read returns in that mode) and yields its result
  together with the successor state and the list of externally visible
  actions (mode-switch commands and raised events), in execution order.
-/

namespace Ev3Nav

/-- Threshold states of the EV3 core's detector. The numeric codes follow
the comment in navigation-sensor.ts: Normal=1, High=2, Low=3. -/
inductive ThresholdState
| Normal
| High
| Low
deriving DecidableEq, Repr

def ThresholdState.code : ThresholdState → Nat
| .Normal => 1
| .High => 2
| .Low => 3

/-- Modelled from the spec: `sensors.ThresholdDetector` lives in the host
framework (EV3 core `input.ts`), not under this repository's sources. Per the
spec it holds `min`, `max`, `lowThreshold`, `highThreshold` and a current
level in {Normal, High, Low}, with the invariant
min ≤ lowThreshold ≤ highThreshold ≤ max. -/
structure ThresholdDetector where
  id : Nat
  min : Int
  max : Int
  lowThreshold : Int
  highThreshold : Int
  state : ThresholdState
deriving DecidableEq, Repr

/-- Constructor call `new sensors.ThresholdDetector(id, min, max, low, high)`;
initial state is Normal per the spec. -/
def mkThresholdDetector (id : Nat) (min max low high : Int) : ThresholdDetector :=
  ⟨id, min, max, low, high, ThresholdState.Normal⟩

/-- Modelled from the spec: the transition function of the threshold state
machine — value ≤ lowThreshold → Low, value ≥ highThreshold → High,
otherwise Normal. -/
def ThresholdDetector.computeState (d : ThresholdDetector) (value : Int) : ThresholdState :=
  if value ≤ d.lowThreshold then ThresholdState.Low
  else if d.highThreshold ≤ value then ThresholdState.High
  else ThresholdState.Normal

/-- Modelled from the spec: `setLevel(value)` recomputes the state and, when
the state changed from the previous call, signals the level change by raising
the new state's numeric code as an event (the Low code is the `ObjectNear`
event consumers subscribe to). Returns the updated detector and the list of
signalled event codes. -/
def ThresholdDetector.setLevel (d : ThresholdDetector) (value : Int) :
    ThresholdDetector × List Nat :=
  let s := d.computeState value
  ({ d with state := s }, if s = d.state then [] else [s.code])

/-- Modelled from the spec: `threshold(state)` returns the configured boundary
for a state (Low → lowThreshold, High → highThreshold). -/
def ThresholdDetector.threshold (d : ThresholdDetector) (s : ThresholdState) : Int :=
  match s with
  | .Low => d.lowThreshold
  | .High => d.highThreshold
  | .Normal => 0

/-- Modelled from the spec: `setLowThreshold` validates the ordering invariant
min ≤ value ≤ highThreshold and rejects the update (retaining prior state)
when it is violated. -/
def ThresholdDetector.setLowThreshold (d : ThresholdDetector) (value : Int) :
    ThresholdDetector :=
  if d.min ≤ value ∧ value ≤ d.highThreshold then { d with lowThreshold := value } else d

/-- Errors of the register codec. -/
inductive CodecError
| OutOfRange
deriving DecidableEq, Repr

/-- Little-endian accumulation of `width` bytes of `buffer` starting at
`offset` (missing bytes read as 0; each entry is taken mod 256 as a byte). -/
def leBytes (buffer : List Nat) (offset : Nat) : Nat → Nat
| 0 => 0
| w + 1 => buffer.getD offset 0 % 256 + 256 * leBytes buffer (offset + 1) w

/-- Modelled from the spec: the value part of the Register Codec — `width`
little-endian bytes at `offset`, interpreted as two's-complement when
`signed`, unsigned otherwise. The `getNumber(NumberFormat.UInt16LE, o)` and
`getNumber(NumberFormat.Int16LE, o)` framework reads the driver performs are
`decodeVal buf o 2 false` and `decodeVal buf o 2 true` on the buffer of the
currently active mode. -/
def decodeVal (buffer : List Nat) (offset width : Nat) (signed : Bool) : Int :=
  if signed = true ∧ 2 ^ (8 * width - 1) ≤ leBytes buffer offset width then
    (leBytes buffer offset width : Int) - 2 ^ (8 * width)
  else
    (leBytes buffer offset width : Int)

/-- Modelled from the spec: the Register Codec contract
`decode(buffer, offset, width, signed) -> integer`, failing with `OutOfRange`
when `offset + width` exceeds the buffer length. -/
def decode (buffer : List Nat) (offset width : Nat) (signed : Bool) :
    Except CodecError Int :=
  if offset + width ≤ buffer.length then
    Except.ok (decodeVal buffer offset width signed)
  else
    Except.error CodecError.OutOfRange

/-- Externally visible actions a driver method performs, in order: device
mode-switch commands (`_setMode` reaching the transport) and events raised on
the event bus (`control.raiseEvent`, recorded by numeric event code; the
source id is fixed per driver instance). -/
inductive Action
| setMode (mode : Int)
| raiseEvent (event : Nat)
deriving DecidableEq, Repr

/-- The event codes raised by a trace of actions, in order. -/
def raisedEvents : List Action → List Nat
| [] => []
| Action.raiseEvent e :: rest => e :: raisedEvents rest
| Action.setMode _ :: rest => raisedEvents rest

/-- The mode-switch commands issued by a trace of actions, in order. -/
def modeCommands : List Action → List Int
| [] => []
| Action.setMode m :: rest => m :: modeCommands rest
| Action.raiseEvent _ :: rest => modeCommands rest

lemma raisedEvents_append (a b : List Action) :
    raisedEvents (a ++ b) = raisedEvents a ++ raisedEvents b := by
  induction a with
  | nil => rfl
  | cons x xs ih => cases x <;> simp [raisedEvents, ih]

lemma raisedEvents_map_raiseEvent (xs : List Nat) :
    raisedEvents (xs.map Action.raiseEvent) = xs := by
  induction xs with
  | nil => rfl
  | cons x xs ih => simp [raisedEvents, ih]

lemma leBytes_lt (buffer : List Nat) (offset width : Nat) :
    leBytes buffer offset width < 2 ^ (8 * width) := by
  induction width generalizing offset with
  | zero => simp [leBytes]
  | succ w ih =>
    have h1 : buffer.getD offset 0 % 256 < 256 := Nat.mod_lt _ (by norm_num)
    have h2 := ih (offset + 1)
    have h3 : 2 ^ (8 * (w + 1)) = 256 * 2 ^ (8 * w) := by
      rw [Nat.mul_add, Nat.pow_add]
      ring
    rw [leBytes, h3]
    omega

/-! ## Dual-lidar variant (navigation-sensor.ts) -/

namespace NavSensor

/-- `NavigationSensorMode` of navigation-sensor.ts: None = -1, NAV1 = 0
(left range, right range, heading angle), NAV2 = 1 (heading, pitch, roll). -/
inductive NavigationSensorMode
| None
| NAV1
| NAV2
deriving DecidableEq, Repr

def NavigationSensorMode.code : NavigationSensorMode → Int
| .None => -1
| .NAV1 => 0
| .NAV2 => 1

/-- `NavigationSensorEvent` of navigation-sensor.ts. -/
inductive NavigationSensorEvent
| ObjectDetected
| ObjectNearLeft
| ObjectNearRight
| ObjectNear
deriving DecidableEq, Repr

def NavigationSensorEvent.code : NavigationSensorEvent → Nat
| .ObjectDetected => 10
| .ObjectNearLeft => 4
| .ObjectNearRight => 5
| .ObjectNear => ThresholdState.code ThresholdState.Low

/-- The device, seen by the driver: for each mode, the byte buffer a register
read returns while that mode is active. -/
def Device : Type := NavigationSensorMode → List Nat

/-- Mutable state of one dual-lidar `NavigationSensor` instance: the mode
selector's current mode and the two threshold fields of the class. -/
structure State where
  currentMode : NavigationSensorMode
  promixityThreshold : ThresholdDetector
  movementThreshold : Int
deriving DecidableEq, Repr

/-- Modelled from the spec: `UartSensor._setMode` (host framework, not under
this repository's sources) holds `currentMode` and issues a device mode-switch
command only when the requested mode differs from it. -/
def State.setMode (s : State) (m : NavigationSensorMode) : State × List Action :=
  if m = s.currentMode then (s, [])
  else ({ s with currentMode := m }, [Action.setMode m.code])

/-- State after the constructor `new NavigationSensor(port)` ran: the
proximity detector is built with (min, max, low, high) = (0, 2500, 100, 1500)
in mm, `movementThreshold = 1`, and `_setMode(NAV1)` was issued. -/
def mkSensor (id : Nat) : State :=
  { currentMode := NavigationSensorMode.NAV1
  , promixityThreshold := mkThresholdDetector id 0 2500 100 1500
  , movementThreshold := 1 }

/-- `distanceLeft()`: `_setMode(NAV1)` then `getNumber(UInt16LE, 0)`. -/
def distanceLeft (dev : Device) (s : State) : Int × State × List Action :=
  let ms := s.setMode NavigationSensorMode.NAV1
  (decodeVal (dev NavigationSensorMode.NAV1) 0 2 false, ms.1, ms.2)

/-- `distanceRight()`: `_setMode(NAV1)` then `getNumber(UInt16LE, 2)`. -/
def distanceRight (dev : Device) (s : State) : Int × State × List Action :=
  let ms := s.setMode NavigationSensorMode.NAV1
  (decodeVal (dev NavigationSensorMode.NAV1) 2 2 false, ms.1, ms.2)

/-- `heading()`: `_setMode(NAV1)` then `getNumber(UInt16LE, 4)`. -/
def heading (dev : Device) (s : State) : Int × State × List Action :=
  let ms := s.setMode NavigationSensorMode.NAV1
  (decodeVal (dev NavigationSensorMode.NAV1) 4 2 false, ms.1, ms.2)

/-- `_query()`: `getNumber(UInt16LE, 0)` on the buffer of whatever mode is
currently active; no mode selection, no state change, no actions. -/
def query (dev : Device) (s : State) : Int × State × List Action :=
  (decodeVal (dev s.currentMode) 0 2 false, s, [])

/-- `_update(prev, curr)` of navigation-sensor.ts: feed `curr` to the
proximity detector via `setLevel`; raise ObjectDetected when
`|prev - curr| > movementThreshold`; then re-read `distanceRight()` and raise
ObjectNearRight when it is below the proximity low threshold; then re-read
`distanceLeft()` and raise ObjectNearLeft likewise. -/
def update (dev : Device) (s : State) (prev curr : Int) : State × List Action :=
  let dl := s.promixityThreshold.setLevel curr
  let s1 : State := { s with promixityThreshold := dl.1 }
  let a1 := dl.2.map Action.raiseEvent
  let a2 := if s1.movementThreshold < |prev - curr| then
      [Action.raiseEvent (NavigationSensorEvent.code NavigationSensorEvent.ObjectDetected)]
    else []
  let rr := distanceRight dev s1
  let a4 := if rr.1 < rr.2.1.promixityThreshold.lowThreshold then
      [Action.raiseEvent (NavigationSensorEvent.code NavigationSensorEvent.ObjectNearRight)]
    else []
  let ll := distanceLeft dev rr.2.1
  let a6 := if ll.1 < ll.2.1.promixityThreshold.lowThreshold then
      [Action.raiseEvent (NavigationSensorEvent.code NavigationSensorEvent.ObjectNearLeft)]
    else []
  (ll.2.1, a1 ++ a2 ++ rr.2.2 ++ a4 ++ ll.2.2 ++ a6)

/-- `setThreshold(condition, value)` of navigation-sensor.ts: ObjectDetected
sets `movementThreshold`; any other condition code goes to the proximity
detector's `setLowThreshold`. Conditions are passed as raw numeric codes, as
TypeScript enums are numbers at runtime. -/
def setThreshold (s : State) (condition : Nat) (value : Int) : State :=
  if condition = NavigationSensorEvent.code NavigationSensorEvent.ObjectDetected then
    { s with movementThreshold := value }
  else
    { s with promixityThreshold := s.promixityThreshold.setLowThreshold value }

/-- `getProximityThreshold(condition)` of navigation-sensor.ts: ObjectDetected
returns `movementThreshold`; any other condition code returns
`promixityThreshold.threshold(Low)`. -/
def getProximityThreshold (s : State) (condition : Nat) : Int :=
  if condition = NavigationSensorEvent.code NavigationSensorEvent.ObjectDetected then
    s.movementThreshold
  else
    s.promixityThreshold.threshold ThresholdState.Low

end NavSensor

/-! ## Five-lidar variant (main.ts) -/

namespace NavMain

/-- `NavigationSensorMode` of main.ts: None = -1, RANGE = 0 (front-left,
front-right, left-side, right-side, rear ranges), HEADING = 1 (heading,
pitch, roll). -/
inductive NavigationSensorMode
| None
| RANGE
| HEADING
deriving DecidableEq, Repr

def NavigationSensorMode.code : NavigationSensorMode → Int
| .None => -1
| .RANGE => 0
| .HEADING => 1

/-- `NavigationSensorEvent` of main.ts: only ObjectDetected and ObjectNear. -/
inductive NavigationSensorEvent
| ObjectDetected
| ObjectNear
deriving DecidableEq, Repr

def NavigationSensorEvent.code : NavigationSensorEvent → Nat
| .ObjectDetected => 10
| .ObjectNear => ThresholdState.code ThresholdState.Low

/-- The device, seen by the driver: for each mode, the byte buffer a register
read returns while that mode is active. -/
def Device : Type := NavigationSensorMode → List Nat

/-- Mutable state of one five-lidar `NavigationSensor` instance. -/
structure State where
  currentMode : NavigationSensorMode
  promixityThreshold : ThresholdDetector
  movementThreshold : Int
deriving DecidableEq, Repr

/-- Modelled from the spec: `UartSensor._setMode` (host framework, not under
this repository's sources) holds `currentMode` and issues a device mode-switch
command only when the requested mode differs from it. -/
def State.setMode (s : State) (m : NavigationSensorMode) : State × List Action :=
  if m = s.currentMode then (s, [])
  else ({ s with currentMode := m }, [Action.setMode m.code])

/-- State after the constructor `new NavigationSensor(port)` ran: the
proximity detector is built with (min, max, low, high) = (0, 255, 10, 100)
(range 0..255 cm), `movementThreshold = 1`, and `_setMode(HEADING)` was
issued. -/
def mkSensor (id : Nat) : State :=
  { currentMode := NavigationSensorMode.HEADING
  , promixityThreshold := mkThresholdDetector id 0 255 10 100
  , movementThreshold := 1 }

/-- `distanceFrontLeft()`: `_setMode(RANGE)` then `getNumber(UInt16LE, 0)`. -/
def distanceFrontLeft (dev : Device) (s : State) : Int × State × List Action :=
  let ms := s.setMode NavigationSensorMode.RANGE
  (decodeVal (dev NavigationSensorMode.RANGE) 0 2 false, ms.1, ms.2)

/-- `distanceFrontRight()`: `_setMode(RANGE)` then `getNumber(UInt16LE, 2)`. -/
def distanceFrontRight (dev : Device) (s : State) : Int × State × List Action :=
  let ms := s.setMode NavigationSensorMode.RANGE
  (decodeVal (dev NavigationSensorMode.RANGE) 2 2 false, ms.1, ms.2)

/-- `distanceRear()`: `_setMode(RANGE)` then `getNumber(UInt16LE, 8)`. -/
def distanceRear (dev : Device) (s : State) : Int × State × List Action :=
  let ms := s.setMode NavigationSensorMode.RANGE
  (decodeVal (dev NavigationSensorMode.RANGE) 8 2 false, ms.1, ms.2)

/-- `distanceLeftSide()`: `_setMode(RANGE)` then `getNumber(UInt16LE, 4)`. -/
def distanceLeftSide (dev : Device) (s : State) : Int × State × List Action :=
  let ms := s.setMode NavigationSensorMode.RANGE
  (decodeVal (dev NavigationSensorMode.RANGE) 4 2 false, ms.1, ms.2)

/-- `distanceRightSide()`: `_setMode(RANGE)` then `getNumber(UInt16LE, 6)`. -/
def distanceRightSide (dev : Device) (s : State) : Int × State × List Action :=
  let ms := s.setMode NavigationSensorMode.RANGE
  (decodeVal (dev NavigationSensorMode.RANGE) 6 2 false, ms.1, ms.2)

/-- `heading()`: `_setMode(HEADING)` then `getNumber(Int16LE, 0)`. -/
def heading (dev : Device) (s : State) : Int × State × List Action :=
  let ms := s.setMode NavigationSensorMode.HEADING
  (decodeVal (dev NavigationSensorMode.HEADING) 0 2 true, ms.1, ms.2)

/-- `pitch()`: `_setMode(HEADING)` then `getNumber(Int16LE, 2)`. -/
def pitch (dev : Device) (s : State) : Int × State × List Action :=
  let ms := s.setMode NavigationSensorMode.HEADING
  (decodeVal (dev NavigationSensorMode.HEADING) 2 2 true, ms.1, ms.2)

/-- `roll()`: `_setMode(HEADING)` then `getNumber(Int16LE, 4)`. -/
def roll (dev : Device) (s : State) : Int × State × List Action :=
  let ms := s.setMode NavigationSensorMode.HEADING
  (decodeVal (dev NavigationSensorMode.HEADING) 4 2 true, ms.1, ms.2)

/-- `_query()`: `getNumber(Int16LE, 0)` on the buffer of whatever mode is
currently active; no mode selection, no state change, no actions. -/
def query (dev : Device) (s : State) : Int × State × List Action :=
  (decodeVal (dev s.currentMode) 0 2 true, s, [])

/-- `_update(prev, curr)` of main.ts: feed `curr` to the proximity detector
via `setLevel`; raise ObjectDetected when `|prev - curr| > movementThreshold`.
No further steps in this variant. -/
def update (s : State) (prev curr : Int) : State × List Action :=
  let dl := s.promixityThreshold.setLevel curr
  let s1 : State := { s with promixityThreshold := dl.1 }
  let a1 := dl.2.map Action.raiseEvent
  let a2 := if s1.movementThreshold < |prev - curr| then
      [Action.raiseEvent (NavigationSensorEvent.code NavigationSensorEvent.ObjectDetected)]
    else []
  (s1, a1 ++ a2)

/-- `setThreshold(condition, value)` of main.ts: a switch on the condition
code — ObjectNear sets the proximity low threshold, ObjectDetected sets
`movementThreshold`, anything else falls through with no effect. -/
def setThreshold (s : State) (condition : Nat) (value : Int) : State :=
  if condition = NavigationSensorEvent.code NavigationSensorEvent.ObjectNear then
    { s with promixityThreshold := s.promixityThreshold.setLowThreshold value }
  else if condition = NavigationSensorEvent.code NavigationSensorEvent.ObjectDetected then
    { s with movementThreshold := value }
  else s

/-- `threshold(condition)` of main.ts: a switch on the condition code —
ObjectNear returns `promixityThreshold.threshold(Low)`, ObjectDetected
returns `movementThreshold`, anything else returns 0. -/
def threshold (s : State) (condition : Nat) : Int :=
  if condition = NavigationSensorEvent.code NavigationSensorEvent.ObjectNear then
    s.promixityThreshold.threshold ThresholdState.Low
  else if condition = NavigationSensorEvent.code NavigationSensorEvent.ObjectDetected then
    s.movementThreshold
  else 0

end NavMain

/-! ## Concrete fixtures and auxiliary definitions -/

/-- The proximity detector as constructed by the dual-lidar variant's
constructor (min 0, max 2500, low 100, high 1500), at an arbitrary current
level `st`. -/
def dualProximityDetector (id : Nat) (st : ThresholdState) : ThresholdDetector :=
  { (NavSensor.mkSensor id).promixityThreshold with state := st }

/-- A concrete dual-lidar device: in NAV1 the buffer holds left range 7 mm at
offset 0, right range 1500 mm at offset 2, and heading 300 at offset 4. -/
def dualDev : NavSensor.Device := fun m =>
  match m with
  | NavSensor.NavigationSensorMode.NAV1 => [7, 0, 220, 5, 44, 1]
  | _ => []

/-- A concrete five-lidar device: distinct fields per mode, so that the
mode-dependence of reads is observable (RANGE offset 0 holds 10, HEADING
offset 0 holds 90). -/
def mainDev : NavMain.Device := fun m =>
  match m with
  | NavMain.NavigationSensorMode.RANGE => [10, 0, 20, 0, 30, 0, 40, 0, 50, 0]
  | NavMain.NavigationSensorMode.HEADING => [90, 0, 5, 0, 6, 0]
  | NavMain.NavigationSensorMode.None => []

/-- Run a sequence of `_setMode` requests against a dual-lidar driver state,
collecting the issued device commands in order. -/
def runModes (s : NavSensor.State) :
    List NavSensor.NavigationSensorMode → NavSensor.State × List Action
| [] => (s, [])
| m :: ms =>
    let r := s.setMode m
    let rest := runModes r.1 ms
    (rest.1, r.2 ++ rest.2)

/-! ## Helper lemmas -/

lemma navSensor_setMode_currentMode (s : NavSensor.State) (m : NavSensor.NavigationSensorMode) :
    (s.setMode m).1.currentMode = m := by
  unfold NavSensor.State.setMode
  split_ifs with h
  · exact h.symm
  · rfl

lemma navSensor_setMode_prox (s : NavSensor.State) (m : NavSensor.NavigationSensorMode) :
    (s.setMode m).1.promixityThreshold = s.promixityThreshold := by
  unfold NavSensor.State.setMode
  split_ifs <;> rfl

lemma navSensor_setMode_raisedEvents (s : NavSensor.State) (m : NavSensor.NavigationSensorMode) :
    raisedEvents (s.setMode m).2 = [] := by
  unfold NavSensor.State.setMode
  split_ifs <;> rfl

lemma navMain_setMode_currentMode (t : NavMain.State) (m : NavMain.NavigationSensorMode) :
    (t.setMode m).1.currentMode = m := by
  unfold NavMain.State.setMode
  split_ifs with h
  · exact h.symm
  · rfl

lemma setLevel_lowThreshold (d : ThresholdDetector) (v : Int) :
    (d.setLevel v).1.lowThreshold = d.lowThreshold := rfl

lemma decodeVal_unsigned_bounds (buf : List Nat) (off w : Nat) :
    0 ≤ decodeVal buf off w false ∧ decodeVal buf off w false < 2 ^ (8 * w) := by
  have h := leBytes_lt buf off w
  unfold decodeVal
  rw [if_neg (by simp)]
  constructor
  · exact Int.natCast_nonneg _
  · exact_mod_cast h

lemma decodeVal_signed16_bounds (buf : List Nat) (off : Nat) :
    -(2 ^ 15) ≤ decodeVal buf off 2 true ∧ decodeVal buf off 2 true < 2 ^ 15 := by
  have h := leBytes_lt buf off 2
  unfold decodeVal
  split_ifs with hc
  · have h2 : 2 ^ (8 * 2 - 1) ≤ leBytes buf off 2 := hc.2
    norm_num at h h2 ⊢
    omega
  · have h2 : ¬ 2 ^ (8 * 2 - 1) ≤ leBytes buf off 2 := by
      intro hle
      exact hc ⟨rfl, hle⟩
    norm_num at h h2 ⊢
    omega

/-! ## Claim theorems -/

/-- C4: for the ThresholdDetector built with the dual-lidar constructor values
lowThreshold = 100 and highThreshold = 1500, `setLevel 99` and `setLevel 100`
yield state Low, `setLevel 101` and `setLevel 1499` yield Normal, and
`setLevel 1500` yields High; in general a value ≤ lowThreshold maps to Low, a
value ≥ highThreshold maps to High, and any other value maps to Normal. -/
theorem setLevel_boundary_mapping (id : Nat) (st : ThresholdState) (v : Int) :
    (((dualProximityDetector id st).setLevel 99).1.state = ThresholdState.Low ∧
     ((dualProximityDetector id st).setLevel 100).1.state = ThresholdState.Low ∧
     ((dualProximityDetector id st).setLevel 101).1.state = ThresholdState.Normal ∧
     ((dualProximityDetector id st).setLevel 1499).1.state = ThresholdState.Normal ∧
     ((dualProximityDetector id st).setLevel 1500).1.state = ThresholdState.High) ∧
    ((dualProximityDetector id st).setLevel v).1.state =
      (if v ≤ 100 then ThresholdState.Low
       else if 1500 ≤ v then ThresholdState.High
       else ThresholdState.Normal) := by
  refine ⟨⟨?_, ?_, ?_, ?_, ?_⟩, ?_⟩ <;>
    simp [dualProximityDetector, NavSensor.mkSensor, mkThresholdDetector,
      ThresholdDetector.setLevel, ThresholdDetector.computeState]

/-- C8: the Register Codec's unsigned little-endian width-2 decode yields 100
at offset 0 and 300 at offset 2 of the buffer [0x64, 0x00, 0x2C, 0x01], and
fails with OutOfRange whenever offset + width exceeds the buffer length. -/
theorem decode_contract (buf : List Nat) (off w : Nat) (sgn : Bool)
    (h : buf.length < off + w) :
    decode [0x64, 0x00, 0x2C, 0x01] 0 2 false = Except.ok 100 ∧
    decode [0x64, 0x00, 0x2C, 0x01] 2 2 false = Except.ok 300 ∧
    decode buf off w sgn = Except.error CodecError.OutOfRange := by
  refine ⟨rfl, rfl, ?_⟩
  unfold decode
  rw [if_neg (by omega)]

/-- Witness for C8: decoding a one-byte buffer with width 2 at offset 0 is
out of range, while the concrete four-byte decodes succeed. -/
theorem decode_contract_witness :
    decode [0x64, 0x00, 0x2C, 0x01] 0 2 false = Except.ok 100 ∧
    decode [0x64, 0x00, 0x2C, 0x01] 2 2 false = Except.ok 300 ∧
    decode [1] 0 2 false = Except.error CodecError.OutOfRange :=
  decode_contract [1] 0 2 false (by norm_num)

/-- C9: the numeric event codes are ObjectDetected = 10 and ObjectNear = the
detector's Low-state code in both variants, and the dual-lidar variant alone
adds ObjectNearLeft = 4 and ObjectNearRight = 5 (the five-lidar variant's
event enumeration has no other members than ObjectDetected and ObjectNear). -/
theorem event_codes :
    NavMain.NavigationSensorEvent.code NavMain.NavigationSensorEvent.ObjectDetected = 10 ∧
    NavMain.NavigationSensorEvent.code NavMain.NavigationSensorEvent.ObjectNear =
      ThresholdState.code ThresholdState.Low ∧
    NavSensor.NavigationSensorEvent.code NavSensor.NavigationSensorEvent.ObjectDetected = 10 ∧
    NavSensor.NavigationSensorEvent.code NavSensor.NavigationSensorEvent.ObjectNear =
      ThresholdState.code ThresholdState.Low ∧
    NavSensor.NavigationSensorEvent.code NavSensor.NavigationSensorEvent.ObjectNearLeft = 4 ∧
    NavSensor.NavigationSensorEvent.code NavSensor.NavigationSensorEvent.ObjectNearRight = 5 ∧
    (∀ e : NavMain.NavigationSensorEvent,
      NavMain.NavigationSensorEvent.code e = 10 ∨
      NavMain.NavigationSensorEvent.code e = ThresholdState.code ThresholdState.Low) := by
  refine ⟨rfl, rfl, rfl, rfl, rfl, rfl, ?_⟩
  intro e
  cases e
  · exact Or.inl rfl
  · exact Or.inr rfl

/-- C7: every range accessor selects the RANGE-family mode before reading and
decodes an unsigned width-2 field at its channel's fixed offset — five-lidar:
front-left 0, front-right 2, left-side 4, right-side 6, rear 8 (mode RANGE);
dual-lidar: left 0, right 2 (mode NAV1); and an unsigned width-2 decode always
lies in [0, 2^16). -/
theorem range_accessor_offsets (devm : NavMain.Device) (t : NavMain.State)
    (devn : NavSensor.Device) (s : NavSensor.State) (buf : List Nat) (off : Nat) :
    (NavMain.distanceFrontLeft devm t).1 =
      decodeVal (devm NavMain.NavigationSensorMode.RANGE) 0 2 false ∧
    (NavMain.distanceFrontLeft devm t).2.1.currentMode = NavMain.NavigationSensorMode.RANGE ∧
    (NavMain.distanceFrontRight devm t).1 =
      decodeVal (devm NavMain.NavigationSensorMode.RANGE) 2 2 false ∧
    (NavMain.distanceFrontRight devm t).2.1.currentMode = NavMain.NavigationSensorMode.RANGE ∧
    (NavMain.distanceLeftSide devm t).1 =
      decodeVal (devm NavMain.NavigationSensorMode.RANGE) 4 2 false ∧
    (NavMain.distanceLeftSide devm t).2.1.currentMode = NavMain.NavigationSensorMode.RANGE ∧
    (NavMain.distanceRightSide devm t).1 =
      decodeVal (devm NavMain.NavigationSensorMode.RANGE) 6 2 false ∧
    (NavMain.distanceRightSide devm t).2.1.currentMode = NavMain.NavigationSensorMode.RANGE ∧
    (NavMain.distanceRear devm t).1 =
      decodeVal (devm NavMain.NavigationSensorMode.RANGE) 8 2 false ∧
    (NavMain.distanceRear devm t).2.1.currentMode = NavMain.NavigationSensorMode.RANGE ∧
    (NavSensor.distanceLeft devn s).1 =
      decodeVal (devn NavSensor.NavigationSensorMode.NAV1) 0 2 false ∧
    (NavSensor.distanceLeft devn s).2.1.currentMode = NavSensor.NavigationSensorMode.NAV1 ∧
    (NavSensor.distanceRight devn s).1 =
      decodeVal (devn NavSensor.NavigationSensorMode.NAV1) 2 2 false ∧
    (NavSensor.distanceRight devn s).2.1.currentMode = NavSensor.NavigationSensorMode.NAV1 ∧
    0 ≤ decodeVal buf off 2 false ∧ decodeVal buf off 2 false < 2 ^ 16 := by
  have hb := decodeVal_unsigned_bounds buf off 2
  norm_num at hb
  exact ⟨rfl, navMain_setMode_currentMode t _, rfl, navMain_setMode_currentMode t _,
    rfl, navMain_setMode_currentMode t _, rfl, navMain_setMode_currentMode t _,
    rfl, navMain_setMode_currentMode t _, rfl, navSensor_setMode_currentMode s _,
    rfl, navSensor_setMode_currentMode s _, hb.1, hb.2⟩

/-- Counterexample to C3: in the dual-lidar variant, `heading()` does not
decode at offset 0 — on a device whose NAV1 buffer holds 7 at offset 0 and 300
at offset 4, `heading()` returns 300, not the offset-0 field. -/
theorem heading_offset_counterexample :
    (NavSensor.heading dualDev (NavSensor.mkSensor 1)).1 = 300 ∧
    decodeVal (dualDev NavSensor.NavigationSensorMode.NAV1) 0 2 false = 7 ∧
    ¬ (NavSensor.heading dualDev (NavSensor.mkSensor 1)).1 =
        decodeVal (dualDev NavSensor.NavigationSensorMode.NAV1) 0 2 false := by
  refine ⟨by decide, by decide, by decide⟩

/-- C3 (amended): in the five-lidar variant, `heading()`, `pitch()` and
`roll()` each select the HEADING mode before reading and decode a signed
width-2 field at fixed offsets 0, 2 and 4, so each decoded value lies in
[-2^15, 2^15); the dual-lidar variant has no pitch/roll accessors, and its
`heading()` selects NAV1 and decodes an unsigned width-2 field at offset 4. -/
theorem angle_accessor_offsets (devm : NavMain.Device) (t : NavMain.State)
    (devn : NavSensor.Device) (s : NavSensor.State) (buf : List Nat) (off : Nat) :
    (NavMain.heading devm t).1 =
      decodeVal (devm NavMain.NavigationSensorMode.HEADING) 0 2 true ∧
    (NavMain.heading devm t).2.1.currentMode = NavMain.NavigationSensorMode.HEADING ∧
    (NavMain.pitch devm t).1 =
      decodeVal (devm NavMain.NavigationSensorMode.HEADING) 2 2 true ∧
    (NavMain.pitch devm t).2.1.currentMode = NavMain.NavigationSensorMode.HEADING ∧
    (NavMain.roll devm t).1 =
      decodeVal (devm NavMain.NavigationSensorMode.HEADING) 4 2 true ∧
    (NavMain.roll devm t).2.1.currentMode = NavMain.NavigationSensorMode.HEADING ∧
    (NavSensor.heading devn s).1 =
      decodeVal (devn NavSensor.NavigationSensorMode.NAV1) 4 2 false ∧
    (NavSensor.heading devn s).2.1.currentMode = NavSensor.NavigationSensorMode.NAV1 ∧
    -(2 ^ 15) ≤ decodeVal buf off 2 true ∧ decodeVal buf off 2 true < 2 ^ 15 := by
  have hb := decodeVal_signed16_bounds buf off
  exact ⟨rfl, navMain_setMode_currentMode t _, rfl, navMain_setMode_currentMode t _,
    rfl, navMain_setMode_currentMode t _, rfl, navSensor_setMode_currentMode s _,
    hb.1, hb.2⟩

/-- C10: `_query()` decodes the width-2 field at offset 0 of the buffer of
whatever mode is currently active, issues no mode selection and leaves the
driver state unchanged; when the construction mode (HEADING for the five-lidar
variant, NAV1 for the dual-lidar variant) is still active it returns the
primary channel's field (the value `heading()` resp. `distanceLeft()` would
read), and under a different active mode it returns that mode's offset-0 field
instead (10 from the RANGE buffer versus 90 from the HEADING buffer on the
concrete device `mainDev`). -/
theorem query_frame_effect (devm : NavMain.Device) (t : NavMain.State)
    (devn : NavSensor.Device) (s : NavSensor.State) :
    NavMain.query devm t = (decodeVal (devm t.currentMode) 0 2 true, t, []) ∧
    NavSensor.query devn s = (decodeVal (devn s.currentMode) 0 2 false, s, []) ∧
    (t.currentMode = NavMain.NavigationSensorMode.HEADING →
      (NavMain.query devm t).1 = (NavMain.heading devm t).1) ∧
    (s.currentMode = NavSensor.NavigationSensorMode.NAV1 →
      (NavSensor.query devn s).1 = (NavSensor.distanceLeft devn s).1) ∧
    (NavMain.query mainDev (NavMain.mkSensor 1)).1 = 90 ∧
    (NavMain.query mainDev
      { NavMain.mkSensor 1 with currentMode := NavMain.NavigationSensorMode.RANGE }).1 = 10 := by
  refine ⟨rfl, rfl, ?_, ?_, by decide, by decide⟩
  · intro h
    simp [NavMain.query, NavMain.heading, h]
  · intro h
    simp [NavSensor.query, NavSensor.distanceLeft, h]

/-- Witness for C10: at the concrete devices and freshly constructed states,
`_query` returns exactly what the primary accessor reads. -/
theorem query_frame_effect_witness :
    (NavMain.query mainDev (NavMain.mkSensor 1)).1 =
      (NavMain.heading mainDev (NavMain.mkSensor 1)).1 ∧
    (NavSensor.query dualDev (NavSensor.mkSensor 1)).1 =
      (NavSensor.distanceLeft dualDev (NavSensor.mkSensor 1)).1 := by
  have h := query_frame_effect mainDev (NavMain.mkSensor 1) dualDev (NavSensor.mkSensor 1)
  exact ⟨h.2.2.1 rfl, h.2.2.2.1 rfl⟩

/-- Counterexample to C5: starting from `currentMode = NAV1` (the state the
constructor leaves behind), two successive `_setMode(NAV1)` calls issue zero
device commands, not exactly one. -/
theorem mode_suppression_counterexample :
    (runModes (NavSensor.mkSensor 1)
      [NavSensor.NavigationSensorMode.NAV1, NavSensor.NavigationSensorMode.NAV1]).2 = [] ∧
    ¬ (runModes (NavSensor.mkSensor 1)
      [NavSensor.NavigationSensorMode.NAV1, NavSensor.NavigationSensorMode.NAV1]).2.length = 1 := by
  refine ⟨by decide, by decide⟩

/-- C5 (amended): the mode selector is idempotent — starting from
`currentMode = None` (unset), two successive `_setMode(NAV1)` calls issue
exactly one device command in total (zero on the second call), and a
subsequent `_setMode(NAV2)` issues exactly one further command and updates
`currentMode` to NAV2; in general a command is issued if and only if the
requested mode differs from `currentMode`, and afterwards `currentMode` is
the requested mode. -/
theorem mode_suppression (d : ThresholdDetector) (mt : Int)
    (s : NavSensor.State) (m : NavSensor.NavigationSensorMode) :
    (runModes (NavSensor.State.mk NavSensor.NavigationSensorMode.None d mt)
      [NavSensor.NavigationSensorMode.NAV1, NavSensor.NavigationSensorMode.NAV1]).2.length = 1 ∧
    (runModes (NavSensor.State.mk NavSensor.NavigationSensorMode.None d mt)
      [NavSensor.NavigationSensorMode.NAV1, NavSensor.NavigationSensorMode.NAV1]).1.currentMode =
      NavSensor.NavigationSensorMode.NAV1 ∧
    (runModes (NavSensor.State.mk NavSensor.NavigationSensorMode.None d mt)
      [NavSensor.NavigationSensorMode.NAV1, NavSensor.NavigationSensorMode.NAV1,
       NavSensor.NavigationSensorMode.NAV2]).2.length = 2 ∧
    (runModes (NavSensor.State.mk NavSensor.NavigationSensorMode.None d mt)
      [NavSensor.NavigationSensorMode.NAV1, NavSensor.NavigationSensorMode.NAV1,
       NavSensor.NavigationSensorMode.NAV2]).1.currentMode =
      NavSensor.NavigationSensorMode.NAV2 ∧
    ((s.setMode m).2 = [] ↔ m = s.currentMode) ∧
    (s.setMode m).1.currentMode = m := by
  refine ⟨?_, ?_, ?_, ?_, ?_, navSensor_setMode_currentMode s m⟩
  · simp [runModes, NavSensor.State.setMode]
  · simp [runModes, NavSensor.State.setMode]
  · simp [runModes, NavSensor.State.setMode]
  · simp [runModes, NavSensor.State.setMode]
  · unfold NavSensor.State.setMode
    split_ifs with h
    · simpa using h
    · simpa using h

/-- Counterexample to C2: in the dual-lidar variant an unrecognized condition
is not a no-op — `setThreshold(ObjectNearLeft, 50)` rewrites the proximity low
threshold from 100 to 50, and `getProximityThreshold(ObjectNearLeft)` returns
the low threshold 100, not 0. -/
theorem threshold_routing_counterexample :
    (NavSensor.setThreshold (NavSensor.mkSensor 1)
      (NavSensor.NavigationSensorEvent.code NavSensor.NavigationSensorEvent.ObjectNearLeft)
      50).promixityThreshold.lowThreshold = 50 ∧
    ¬ NavSensor.setThreshold (NavSensor.mkSensor 1)
      (NavSensor.NavigationSensorEvent.code NavSensor.NavigationSensorEvent.ObjectNearLeft)
      50 = NavSensor.mkSensor 1 ∧
    NavSensor.getProximityThreshold (NavSensor.mkSensor 1)
      (NavSensor.NavigationSensorEvent.code NavSensor.NavigationSensorEvent.ObjectNearLeft)
      = 100 ∧
    ¬ NavSensor.getProximityThreshold (NavSensor.mkSensor 1)
      (NavSensor.NavigationSensorEvent.code NavSensor.NavigationSensorEvent.ObjectNearLeft)
      = 0 := by
  refine ⟨by decide, by decide, by decide, by decide⟩

/-- C2 (amended): ObjectDetected routes to the MovementThreshold scalar and
ObjectNear routes to the proximity detector's low threshold in both variants;
in the five-lidar variant any other condition leaves the driver state
unchanged on set and returns 0 on get, while in the dual-lidar variant every
condition other than ObjectDetected — ObjectNear and unrecognized codes alike
— routes to the proximity low threshold on set and returns it on get. -/
theorem threshold_routing (t : NavMain.State) (s : NavSensor.State) (c : Nat) (v : Int) :
    NavMain.setThreshold t
      (NavMain.NavigationSensorEvent.code NavMain.NavigationSensorEvent.ObjectDetected) v =
      { t with movementThreshold := v } ∧
    NavMain.setThreshold t
      (NavMain.NavigationSensorEvent.code NavMain.NavigationSensorEvent.ObjectNear) v =
      { t with promixityThreshold := t.promixityThreshold.setLowThreshold v } ∧
    NavMain.threshold t
      (NavMain.NavigationSensorEvent.code NavMain.NavigationSensorEvent.ObjectDetected) =
      t.movementThreshold ∧
    NavMain.threshold t
      (NavMain.NavigationSensorEvent.code NavMain.NavigationSensorEvent.ObjectNear) =
      t.promixityThreshold.threshold ThresholdState.Low ∧
    (¬ c = 10 → ¬ c = 3 →
      NavMain.setThreshold t c v = t ∧ NavMain.threshold t c = 0) ∧
    NavSensor.setThreshold s
      (NavSensor.NavigationSensorEvent.code NavSensor.NavigationSensorEvent.ObjectDetected) v =
      { s with movementThreshold := v } ∧
    NavSensor.getProximityThreshold s
      (NavSensor.NavigationSensorEvent.code NavSensor.NavigationSensorEvent.ObjectDetected) =
      s.movementThreshold ∧
    (¬ c = 10 →
      NavSensor.setThreshold s c v =
        { s with promixityThreshold := s.promixityThreshold.setLowThreshold v } ∧
      NavSensor.getProximityThreshold s c =
        s.promixityThreshold.threshold ThresholdState.Low) := by
  refine ⟨?_, ?_, ?_, ?_, ?_, ?_, ?_, ?_⟩
  · simp [NavMain.setThreshold, NavMain.NavigationSensorEvent.code, ThresholdState.code]
  · simp [NavMain.setThreshold, NavMain.NavigationSensorEvent.code, ThresholdState.code]
  · simp [NavMain.threshold, NavMain.NavigationSensorEvent.code, ThresholdState.code]
  · simp [NavMain.threshold, NavMain.NavigationSensorEvent.code, ThresholdState.code]
  · intro h10 h3
    constructor
    · simp [NavMain.setThreshold, NavMain.NavigationSensorEvent.code, ThresholdState.code, h10, h3]
    · simp [NavMain.threshold, NavMain.NavigationSensorEvent.code, ThresholdState.code, h10, h3]
  · simp [NavSensor.setThreshold, NavSensor.NavigationSensorEvent.code]
  · simp [NavSensor.getProximityThreshold, NavSensor.NavigationSensorEvent.code]
  · intro h10
    constructor
    · simp [NavSensor.setThreshold, NavSensor.NavigationSensorEvent.code, h10]
    · simp [NavSensor.getProximityThreshold, NavSensor.NavigationSensorEvent.code, h10]

/-- Witness for C2 (amended): at the unrecognized condition code 7, the
five-lidar variant's set is a no-op and its get returns 0, while the
dual-lidar variant's set updates the proximity low threshold and its get
returns it. -/
theorem threshold_routing_witness :
    NavMain.setThreshold (NavMain.mkSensor 2) 7 42 = NavMain.mkSensor 2 ∧
    NavMain.threshold (NavMain.mkSensor 2) 7 = 0 ∧
    NavSensor.setThreshold (NavSensor.mkSensor 2) 7 42 =
      { NavSensor.mkSensor 2 with
        promixityThreshold := (NavSensor.mkSensor 2).promixityThreshold.setLowThreshold 42 } ∧
    NavSensor.getProximityThreshold (NavSensor.mkSensor 2) 7 =
      (NavSensor.mkSensor 2).promixityThreshold.threshold ThresholdState.Low := by
  have h := threshold_routing (NavMain.mkSensor 2) (NavSensor.mkSensor 2) 7 42
  obtain ⟨-, -, -, -, h5, -, -, h8⟩ := h
  obtain ⟨h5a, h5b⟩ := h5 (by norm_num) (by norm_num)
  obtain ⟨h8a, h8b⟩ := h8 (by norm_num)
  exact ⟨h5a, h5b, h8a, h8b⟩

/-- C1: in the dual-lidar variant, `_update(prev, curr)` feeds `curr` into the
proximity detector via `setLevel`, then raises ObjectDetected (10) when
`|prev - curr| > movementThreshold`, then raises ObjectNearRight (5) when the
re-read right range (NAV1 offset 2) is below the proximity low threshold, then
raises ObjectNearLeft (4) when the re-read left range (NAV1 offset 0) is below
it — the near checks in addition to the primary-channel `setLevel`, in that
fixed order; the five-lidar (single-threshold) variant performs only the
`setLevel` and movement steps. -/
theorem update_event_order (dev : NavSensor.Device) (s : NavSensor.State)
    (t : NavMain.State) (prev curr : Int) :
    (NavSensor.update dev s prev curr).1.promixityThreshold =
      (s.promixityThreshold.setLevel curr).1 ∧
    raisedEvents (NavSensor.update dev s prev curr).2 =
      (s.promixityThreshold.setLevel curr).2
      ++ (if s.movementThreshold < |prev - curr| then [10] else [])
      ++ (if decodeVal (dev NavSensor.NavigationSensorMode.NAV1) 2 2 false <
            s.promixityThreshold.lowThreshold then [5] else [])
      ++ (if decodeVal (dev NavSensor.NavigationSensorMode.NAV1) 0 2 false <
            s.promixityThreshold.lowThreshold then [4] else []) ∧
    (NavMain.update t prev curr).1.promixityThreshold =
      (t.promixityThreshold.setLevel curr).1 ∧
    raisedEvents (NavMain.update t prev curr).2 =
      (t.promixityThreshold.setLevel curr).2
      ++ (if t.movementThreshold < |prev - curr| then [10] else []) := by
  refine ⟨?_, ?_, ?_, ?_⟩
  · simp [NavSensor.update, NavSensor.distanceLeft, NavSensor.distanceRight,
      navSensor_setMode_prox]
  · simp only [NavSensor.update, NavSensor.distanceLeft, NavSensor.distanceRight,
      NavSensor.NavigationSensorEvent.code, raisedEvents_append,
      raisedEvents_map_raiseEvent, navSensor_setMode_raisedEvents,
      navSensor_setMode_prox, setLevel_lowThreshold]
    split_ifs <;> simp [raisedEvents]
  · simp [NavMain.update]
  · simp only [NavMain.update, NavMain.NavigationSensorEvent.code, raisedEvents_append,
      raisedEvents_map_raiseEvent]
    split_ifs <;> simp [raisedEvents]

/-- Counterexample to C6: from the five-lidar variant's freshly constructed
state (movementThreshold = 1, proximity detector (0, 255, 10, 100) at level
Normal), `_update(10, 10)` does not raise nothing — `setLevel(10)` crosses the
low threshold 10 and signals the Low-state code 3 (the ObjectNear event). -/
theorem movement_detection_counterexample :
    raisedEvents (NavMain.update (NavMain.mkSensor 1) 10 10).2 =
      [ThresholdState.code ThresholdState.Low] ∧
    ¬ raisedEvents (NavMain.update (NavMain.mkSensor 1) 10 10).2 = [] := by
  refine ⟨by decide, by decide⟩

/-- C6 (amended): with movementThreshold = 1, `_update(10, 12)` from the
five-lidar variant's freshly constructed state raises exactly the
ObjectDetected event; `_update(10, 10)` raises no ObjectDetected event —
though from the fresh state it raises the Low-state (ObjectNear) signal,
because `setLevel(10)` reaches the low threshold 10 — and it raises nothing
at all when the detector's level does not change (e.g. when its state is
already Low). -/
theorem movement_detection :
    raisedEvents (NavMain.update (NavMain.mkSensor 1) 10 12).2 =
      [NavMain.NavigationSensorEvent.code NavMain.NavigationSensorEvent.ObjectDetected] ∧
    ¬ 10 ∈ raisedEvents (NavMain.update (NavMain.mkSensor 1) 10 10).2 ∧
    raisedEvents (NavMain.update
      { NavMain.mkSensor 1 with
        promixityThreshold :=
          { (NavMain.mkSensor 1).promixityThreshold with state := ThresholdState.Low } }
      10 10).2 = [] := by
  refine ⟨by decide, by decide, by decide⟩

end Ev3Nav
